import Mathlib

/-!
Shallow embedding of the `phlong3105/image_enhancement` repository
(`torchkit`): the filesystem helpers (`torchkit/core/fileio/filedir.py`),
the MLP building block (`torchkit/core/layer/mlp.py`), the ResNet family
and its registries (`torchkit/models/classifiers/resnet.py`), and the
Waymo annotation-conversion script
(`torchkit/datasets/waymo/utils/convert_annotations_yolo.py`).

Python strings are embedded as `String`, machine paths as plain strings,
real-valued annotation fields as `Rat` (the scripts' float parsing and
arithmetic carry no claim-relevant rounding here), and the pieces of the
standard library the helpers call (`os.path.splitext`, `pathlib.Path`,
`os.path.join`, `str.replace`) are embedded faithfully from their
documented CPython semantics.  Filesystem state (`os.path.isfile`,
`os.listdir`, ...) is passed in as explicit function parameters.
-/

/-! ## Character-list string primitives

Executable helpers mirroring the CPython string operations that
`filedir.py` and the dataset scripts rely on. -/

/-- `listIsPrefixOf a b` is `true` iff the char list `a` is a prefix of `b`. -/
def listIsPrefixOf : List Char → List Char → Bool
  | [], _ => true
  | _ :: _, [] => false
  | a :: as, b :: bs => if a = b then listIsPrefixOf as bs else false

/-- Python `s.startswith(pre)` on concrete strings. -/
def strStartsWith (s pre : String) : Bool :=
  listIsPrefixOf pre.data s.data

/-- Python `s.endswith(post)` on concrete strings. -/
def strEndsWith (s post : String) : Bool :=
  listIsPrefixOf post.data.reverse s.data.reverse

/-- Drop the first `n` characters of a string. -/
def strDropChars (s : String) (n : Nat) : String :=
  ⟨s.data.drop n⟩

/-- Python `c in s` for a single character `c`. -/
def strContainsChar (s : String) (c : Char) : Bool :=
  s.data.contains c

/-- Worker for `splitOnSlash`: split at every `'/'`; `acc` holds the
current component reversed. -/
def splitOnSlashAux : List Char → List Char → List (List Char)
  | [], acc => [acc.reverse]
  | c :: rest, acc =>
    if c = '/' then acc.reverse :: splitOnSlashAux rest []
    else splitOnSlashAux rest (c :: acc)

/-- Python `s.split("/")`: the components of `s` between slashes, with
empty components kept (so `"a//b"` yields `["a", "", "b"]`). -/
def splitOnSlash (p : String) : List String :=
  (splitOnSlashAux p.data []).map (fun l => ⟨l⟩)

/-- Fuelled worker for `pyReplace`: replaces non-overlapping occurrences of
`old` by `new`, scanning left to right, exactly as CPython `str.replace`
does for a non-empty pattern.  The fuel is the length of the scanned list,
which suffices because every step consumes at least one character. -/
def replaceAllChars (old new : List Char) : Nat → List Char → List Char
  | 0, l => l
  | _ + 1, [] => []
  | fuel + 1, c :: rest =>
    if old ≠ [] ∧ listIsPrefixOf old (c :: rest) then
      new ++ replaceAllChars old new fuel ((c :: rest).drop old.length)
    else
      c :: replaceAllChars old new fuel rest

/-- Python `s.replace(old, new)` for a non-empty `old`: every
non-overlapping occurrence of `old` in `s` is replaced by `new`. -/
def pyReplace (s old new : String) : String :=
  ⟨replaceAllChars old.data new.data s.data.length s.data⟩

/-- Index of the last occurrence of `c`, as CPython `str.rfind` (-1 when
absent); `i` is the index of the head of the remaining list and `best` the
best index found so far. -/
def lastIdxOfAux (c : Char) : List Char → Int → Int → Int
  | [], _, best => best
  | ch :: rest, i, best =>
    lastIdxOfAux c rest (i + 1) (if ch = c then i else best)

/-- CPython `str.rfind` specialised to a single character: the index of the
last occurrence of `c` in `l`, or `-1` when `c` does not occur. -/
def lastIdxOf (c : Char) (l : List Char) : Int :=
  lastIdxOfAux c l 0 (-1)

/-! ## Embeddings of the CPython path helpers used by `filedir.py` -/

/-- CPython `posixpath.splitext(p)`: split off the extension at the last
dot of the final path component, provided some earlier character of that
component is not a dot (so `".bashrc"` has no extension).  Mirrors
`genericpath._splitext` with `sep = '/'` and `extsep = '.'`. -/
def posix_splitext (p : String) : String × String :=
  let chars := p.data
  let sepIdx := lastIdxOf '/' chars
  let dotIdx := lastIdxOf '.' chars
  if sepIdx < dotIdx then
    let before := (chars.drop (sepIdx + 1).toNat).take (dotIdx - sepIdx - 1).toNat
    if before.any (fun ch => ch ≠ '.') then
      (⟨chars.take dotIdx.toNat⟩, ⟨chars.drop dotIdx.toNat⟩)
    else (p, "")
  else (p, "")

/-- The parsed components of a POSIX path as `pathlib.PurePosixPath` keeps
them: empty components (from repeated or trailing slashes) and `"."`
components are dropped, `".."` is kept.  (The double-slash root special
case of pathlib is not modelled; no claim touches it.) -/
def posixPathComponents (p : String) : List String :=
  (splitOnSlash p).filter (fun c => ¬(c = "" ∨ c = "."))

/-- CPython `str(pathlib.Path(p).parent)`. -/
def pathlib_parent (p : String) : String :=
  let comps := (posixPathComponents p).dropLast
  if strStartsWith p "/" then "/" ++ String.intercalate "/" comps
  else if comps.isEmpty then "." else String.intercalate "/" comps

/-- CPython `str(pathlib.Path(p).name)`: the final path component, or `""`
for the root and the empty path. -/
def pathlib_name (p : String) : String :=
  (posixPathComponents p).getLast?.getD ""

/-- CPython `posixpath.join(a, b)` for two arguments. -/
def os_path_join (a b : String) : String :=
  if strStartsWith b "/" then b
  else if a = "" then b
  else if strEndsWith a "/" then a ++ b
  else a ++ "/" ++ b

/-! ## `torchkit/core/fileio/filedir.py` -/

/-- Modelled from the spec: `torchkit.core.utils.unique` is imported by the
filesystem helpers but its module is not under `src/`; following the
spec's description of the helpers as thin wrappers, it is modelled as
order-preserving deduplication of the path list. -/
def unique (l : List String) : List String :=
  l.foldl (fun acc x => if acc.contains x then acc else acc ++ [x]) []

/-- The slice of filesystem behaviour `create_dirs` depends on: whether a
path currently exists, and whether `shutil.rmtree` / `os.makedirs` raise
an exception at that path. -/
structure FSModel where
  exists_ : String → Bool
  rmtreeRaises : String → Bool
  makedirsRaises : String → Bool

/-- Observable outcome of `create_dirs`: a normal return value, or the
`except` branch, which calls `logger.error` with a message and then calls
`exit(code)`, terminating the process. -/
inductive CreateDirsResult
  | ret (value : Int)
  | loggedErrorAndExit (message : String) (code : Int)
deriving DecidableEq

/-- Whether the outcome terminates the process (the `exit(-1)` branch). -/
def CreateDirsResult.isProcessExit : CreateDirsResult → Bool
  | .ret _ => false
  | .loggedErrorAndExit _ _ => true

/-- The body of `create_dirs`'s loop for one directory `d`: returns
`some message` when handling `d` raises an exception (from `rmtree` or
`makedirs`), `none` when it completes.  When `d` exists and `recreate` is
set, the directory is removed first, after which it no longer exists and
`os.makedirs` runs. -/
def handle_dir (fs : FSModel) (recreate : Bool) (d : String) : Option String :=
  if fs.exists_ d && recreate then
    if fs.rmtreeRaises d then some ("rmtree raised at " ++ d)
    else if fs.makedirsRaises d then some ("makedirs raised at " ++ d)
    else none
  else if !fs.exists_ d then
    if fs.makedirsRaises d then some ("makedirs raised at " ++ d)
    else none
  else none

/-- `create_dirs(paths, recreate)` (filedir.py lines 53-72): iterate over
`unique(paths)`, creating (or recreating) each directory; on success
return `0`.  The loop sits inside a single `try`, so the first exception
aborts the loop and reaches the `except` handler, which logs
`"Cannot create directory: ..."` and calls `exit(-1)`. -/
def create_dirs (fs : FSModel) (paths : List String) (recreate : Bool) :
    CreateDirsResult :=
  match (unique paths).findSome? (handle_dir fs recreate) with
  | some msg =>
    .loggedErrorAndExit ("Cannot create directory: " ++ msg ++ ".") (-1)
  | none => .ret 0

/-- `is_basename(path)`: `False` for `None`; otherwise `True` iff the
path's parent is `"."` and its `splitext` extension is non-empty. -/
def is_basename : Option String → Bool
  | none => false
  | some path =>
    let parent := pathlib_parent path
    if parent = "." then
      let ext := (posix_splitext path).2
      if ext ≠ "" then true else false
    else false

/-- `is_ckpt_file(path)`: `False` for `None`; otherwise `True` iff `path`
is an existing file whose `splitext` extension is in `[".ckpt"]`. -/
def is_ckpt_file (isfile : String → Bool) : Option String → Bool
  | none => false
  | some path =>
    if isfile path then
      let extension := (posix_splitext path).2
      if extension ∈ [".ckpt"] then true else false
    else false

/-- `is_json_file(path)`: as `is_ckpt_file` with extension list `[".json"]`. -/
def is_json_file (isfile : String → Bool) : Option String → Bool
  | none => false
  | some path =>
    if isfile path then
      let extension := (posix_splitext path).2
      if extension ∈ [".json"] then true else false
    else false

/-- `is_name(path)`: `False` for `None`; otherwise `True` iff
`Path(path).name == path`. -/
def is_name : Option String → Bool
  | none => false
  | some path =>
    let nm := pathlib_name path
    if nm = path then true else false

/-- `is_stem(path)`: `False` for `None`; otherwise `True` iff the path's
parent is `"."` and its `splitext` extension is empty. -/
def is_stem : Option String → Bool
  | none => false
  | some path =>
    let parent := pathlib_parent path
    if parent = "." then
      let ext := (posix_splitext path).2
      if ext = "" then true else false
    else false

/-- `is_torch_saved_file(path)`: extension list
`[".pt", ".pth", ".weights", ".ckpt"]`. -/
def is_torch_saved_file (isfile : String → Bool) : Option String → Bool
  | none => false
  | some path =>
    if isfile path then
      let extension := (posix_splitext path).2
      if extension ∈ [".pt", ".pth", ".weights", ".ckpt"] then true else false
    else false

/-- `is_txt_file(path)`: extension list `[".txt"]`. -/
def is_txt_file (isfile : String → Bool) : Option String → Bool
  | none => false
  | some path =>
    if isfile path then
      let extension := (posix_splitext path).2
      if extension ∈ [".txt"] then true else false
    else false

/-- `is_url(path)`: `False` for `None`; otherwise the verdict of
`validators.url`, passed in as `urlOk` (third-party library, out of
repository scope). -/
def is_url (urlOk : String → Bool) : Option String → Bool
  | none => false
  | some path => if urlOk path then true else false

/-- `is_url_or_file(path)`: `False` for `None`; `True` for an existing
file; otherwise the `validators.url` verdict. -/
def is_url_or_file (isfile urlOk : String → Bool) : Option String → Bool
  | none => false
  | some path =>
    if isfile path then true
    else if urlOk path then true else false

/-- `is_weights_file(path)`: extension list `[".pt", ".pth"]`. -/
def is_weights_file (isfile : String → Bool) : Option String → Bool
  | none => false
  | some path =>
    if isfile path then
      let extension := (posix_splitext path).2
      if extension ∈ [".pt", ".pth"] then true else false
    else false

/-- `is_xml_file(path)`: extension list `[".xml"]`. -/
def is_xml_file (isfile : String → Bool) : Option String → Bool
  | none => false
  | some path =>
    if isfile path then
      let extension := (posix_splitext path).2
      if extension ∈ [".xml"] then true else false
    else false

/-- `is_yaml_file(path)`: extension list `[".yaml", ".yml"]`. -/
def is_yaml_file (isfile : String → Bool) : Option String → Bool
  | none => false
  | some path =>
    if isfile path then
      let extension := (posix_splitext path).2
      if extension ∈ [".yaml", ".yml"] then true else false
    else false

/-- `list_subdirs(path)`: `None` for `None`; otherwise the entries `d` of
`os.listdir(path)` for which `os.path.join(path, d)` is a directory. -/
def list_subdirs (listdir : String → List String) (isdir : String → Bool) :
    Option String → Option (List String)
  | none => none
  | some path =>
    some ((listdir path).filter (fun d => isdir (os_path_join path d)))

/-- The extension normalisation of `delete_files` (filedir.py line 307):
`extension = f".{extension}" if "." not in extension else extension`. -/
def normalize_extension (extension : String) : String :=
  if strContainsChar extension '.' then extension else "." ++ extension

/-- The per-directory glob pattern of `delete_files` (line 310):
`os.path.join(d, f"*{extension}")` with the normalised extension. -/
def delete_files_pattern (d extension : String) : String :=
  os_path_join d ("*" ++ normalize_extension extension)

/-- Glob matching restricted to the shape `delete_files` produces: a
pattern `"*X"` matches a single file name iff the name ends with `X`
(fnmatch semantics of a leading `*` over one component). -/
def matchesStarSuffix (pat nm : String) : Bool :=
  strStartsWith pat "*" && strEndsWith nm (strDropChars pat 1)

/-! ## `torchkit/datasets/waymo/utils/convert_annotations_yolo.py` -/

/-- How a batch of per-file tasks is dispatched by a script: run in the
driver process one after another, or handed to a pool of `n_jobs`
concurrent worker processes (`joblib.Parallel`). -/
inductive Dispatch
  | sequential
  | parallel (n_jobs : Nat)
deriving DecidableEq

/-- What one iteration of the conversion script's per-split driver does:
the `annotations_yolo` directories it (re)creates via `create_dirs`, how
it dispatches work, and which annotation paths are handed to `process`. -/
structure SplitRun where
  new_annotations_dirs : List String
  dispatch : Dispatch
  task_inputs : List String
deriving DecidableEq

/-- The per-split driver of `convert_annotations_yolo.py` (lines 25-63):
builds the five `annotations_yolo` camera directories, then dispatches
`process` over the globbed annotation paths via
`Parallel(n_jobs=multiprocessing.cpu_count())(delayed(process)(path) ...)`.
The globbed paths and the cpu count are runtime inputs and appear as
parameters. -/
def convert_annotations_yolo_split_run (datasets_dir split : String)
    (globbed_paths : List String) (cpu_count : Nat) : SplitRun :=
  { new_annotations_dirs :=
      ["front", "front_left", "front_right", "side_left", "side_right"].map
        (fun cam =>
          os_path_join
            (os_path_join
              (os_path_join (os_path_join datasets_dir "waymo") "detection2d")
              split)
            (os_path_join cam "annotations_yolo"))
  , dispatch := .parallel cpu_count
  , task_inputs := globbed_paths }

/-- Python `int(x)` on a rational: truncation toward zero (the
denominator of a `Rat` is positive, so `Int.tdiv` by it truncates the
value toward zero). -/
def pyInt (q : Rat) : Int :=
  q.num.tdiv q.den

/-- One line written by `process`: the integer class label followed by the
four normalised bounding-box values (the line the code formats as
`f"{int(l[1])} {bbox[0]} {bbox[1]} {bbox[2]} {bbox[3]}\n"`). -/
structure OutputLine where
  cls : Int
  bbox : List Rat
deriving DecidableEq

/-- Everything `process` writes for one input file: the derived image
path, the output annotation path, and the output lines. -/
structure ProcessResult where
  image_path : String
  out_path : String
  out_lines : List OutputLine
deriving DecidableEq

/-- `process(path)` (convert_annotations_yolo.py lines 39-57).  The raw
file contents arrive already split into lines of parsed numeric fields
(`line.split()` under `np.float32`); `bboxNorm` is
`torchkit.core.image.bbox_cxcywh_cxcywh_norm`, outside the sources under
`src/`, kept abstract; `shape0` is `(image height, image width)` of the
corresponding image.  For each input line `l` the script emits
`int(l[1])` followed by `bboxNorm(l[2:6], shape0[0], shape0[1])`, and the
output file path is `path.replace("annotations", "annotations_yolo")`. -/
def process (bboxNorm : List Rat → Rat → Rat → List Rat) (shape0 : Rat × Rat)
    (path : String) (lines : List (List Rat)) : ProcessResult :=
  { image_path := pyReplace (pyReplace path "annotations" "images") ".txt" ".jpeg"
  , out_path := pyReplace path "annotations" "annotations_yolo"
  , out_lines := lines.map (fun l =>
      { cls := pyInt (l.getD 1 0)
      , bbox := bboxNorm ((l.drop 2).take 4) shape0.1 shape0.2 }) }

/-- The output-path transformation as the claim words it: the
`annotations` directory component of the input path replaced by
`annotations_yolo`, all other components untouched. -/
def spec_replace_annotations_dir (path : String) : String :=
  String.intercalate "/"
    ((splitOnSlash path).map
      (fun c => if c = "annotations" then "annotations_yolo" else c))

/-! ## `torchkit/models/classifiers/resnet.py` -/

/-- The residual block classes imported from `torchvision.models.resnet`. -/
inductive Block
  | BasicBlock
  | Bottleneck
deriving DecidableEq

/-- One entry of the predefined `cfgs` dictionary: the seven keys each
config dict carries (`norm_layer` is `None` in every predefined entry;
`Option Unit` records only whether one was supplied). -/
structure ResNetVariantCfg where
  block : Block
  layers : List Nat
  zero_init_residual : Bool
  groups : Nat
  width_per_group : Nat
  replace_stride_with_dilation : Option (List Bool)
  norm_layer : Option Unit
deriving DecidableEq

/-- The predefined `cfgs` dictionary (resnet.py lines 30-76). -/
def cfgs : List (String × ResNetVariantCfg) :=
  [ ("resnet18", ⟨.BasicBlock, [2, 2, 2, 2], false, 1, 64, none, none⟩)
  , ("resnet34", ⟨.BasicBlock, [3, 4, 6, 3], false, 1, 64, none, none⟩)
  , ("resnet50", ⟨.Bottleneck, [3, 4, 6, 3], false, 1, 64, none, none⟩)
  , ("resnet101", ⟨.Bottleneck, [3, 4, 23, 3], false, 1, 64, none, none⟩)
  , ("resnet152", ⟨.Bottleneck, [3, 8, 36, 3], false, 1, 64, none, none⟩)
  , ("resnext50_32x4d", ⟨.Bottleneck, [3, 4, 6, 3], false, 32, 4, none, none⟩)
  , ("resnext101_32x8d", ⟨.Bottleneck, [3, 4, 23, 3], false, 32, 8, none, none⟩)
  , ("wide_resnet50_2", ⟨.Bottleneck, [3, 4, 6, 3], false, 1, 128, none, none⟩)
  , ("wide_resnet101_2", ⟨.Bottleneck, [3, 4, 23, 3], false, 1, 128, none, none⟩) ]

/-- Dictionary lookup `cfgs[s]` guarded by `s in cfgs`. -/
def cfgsLookup (s : String) : Option ResNetVariantCfg :=
  (cfgs.find? (fun e => e.1 = s)).map (fun e => e.2)

/-- The runtime type of the `cfg` argument of `ResNet.__init__`: a string,
a config dict, or any other value (list, `None`, ...). -/
inductive CfgArg
  | str (s : String)
  | dict (c : ResNetVariantCfg)
  | other
deriving DecidableEq

/-- The cfg-resolution prefix of `ResNet.__init__` (lines 139-150): a
string found in `cfgs` is replaced by the predefined dict, then
`assert isinstance(cfg, dict)` runs; `none` is an `AssertionError`. -/
def resolve_cfg : CfgArg → Option ResNetVariantCfg
  | .str s => cfgsLookup s
  | .dict c => some c
  | .other => none

/-- One of the four `make_layer` stages as built in `__init__`: its block
class, base planes, number of blocks (the per-stage layer count), and
stride. -/
structure StageSpec where
  block : Block
  planes : Nat
  blocks : Nat
  stride : Nat
deriving DecidableEq

/-- The four `make_layer` calls of `ResNet.__init__` (lines 176-183):
`make_layer(block, 64, layers[0])`, then planes 128/256/512 with stride 2
and `layers[1..3]`.  Every predefined config carries exactly four layer
counts, so the `getD` defaults are never exercised for them. -/
def build_stages (c : ResNetVariantCfg) : List StageSpec :=
  [ ⟨c.block, 64, c.layers.getD 0 0, 1⟩
  , ⟨c.block, 128, c.layers.getD 1 0, 2⟩
  , ⟨c.block, 256, c.layers.getD 2 0, 2⟩
  , ⟨c.block, 512, c.layers.getD 3 0, 2⟩ ]

/-- The runtime type of the `pretrained` argument
(`Union[bool, str, dict]`). -/
inductive PretrainedArg
  | bool (b : Bool)
  | str (s : String)
  | dict (entries : List (String × String))
deriving DecidableEq

/-- Python truthiness of the `pretrained` argument, as tested by
`if self.pretrained:`: `False`, `""` and `{}` are falsy. -/
def PretrainedArg.truthy : PretrainedArg → Bool
  | .bool b => b
  | .str s => !(s = "")
  | .dict entries => !entries.isEmpty

/-- Which weight-setup path `__init__` runs (lines 187-191). -/
inductive WeightSetup
  | load_pretrained
  | initialize_weights (zero_init_residual : Bool)
deriving DecidableEq

/-- The outcome of a successful `ResNet.__init__`: the resolved config,
the four stages, and the weight-setup path that ran. -/
structure ResNetModel where
  cfg : ResNetVariantCfg
  stages : List StageSpec
  weight_setup : WeightSetup
deriving DecidableEq

/-- `ResNet.__init__(cfg, ..., pretrained)` (lines 128-198), as far as the
claims reach: resolve `cfg` (an `AssertionError`, i.e. `none`, when it
does not resolve to a dict), reject a non-`None`
`replace_stride_with_dilation` whose length is not 3 (`ValueError`),
build the four stages, and run exactly one of `load_pretrained` /
`initialize_weights(zero_init_residual)` according to the truthiness of
`self.pretrained`.  Modelled from the spec where `src/` is silent: the
`ImageClassifier` base class (not under `src/`) stores the constructor's
`pretrained` argument unchanged as `self.pretrained`. -/
def ResNet_init (cfg : CfgArg) (pretrained : PretrainedArg) :
    Option ResNetModel :=
  match resolve_cfg cfg with
  | none => none
  | some c =>
    let rswd := c.replace_stride_with_dilation.getD [false, false, false]
    if rswd.length ≠ 3 then none
    else some
      { cfg := c
      , stages := build_stages c
      , weight_setup :=
          if pretrained.truthy then .load_pretrained
          else .initialize_weights c.zero_init_residual }

/-- The model variant classes defined in `resnet.py`. -/
inductive ModelVariantClass
  | ResNet
  | ResNet18
  | ResNet34
  | ResNet50
  | ResNet101
  | ResNet152
  | ResNeXt50_32X4D
  | ResNeXt101_32X8D
  | WideResNet50_2
  | WideResNet101_2
deriving DecidableEq

/-- Modelled from the spec: the registries `BACKBONES`, `CLASSIFIERS` and
`MODELS` come from `torchkit.models.builder`, which is not under `src/`;
per the spec's registry/decorator description ("a convenience for dynamic
lookup"), a registry is a name-to-class map and `register(name=...)`
inserts the decorated class under that name. -/
structure Registry where
  entries : List (String × ModelVariantClass)
deriving DecidableEq

/-- `@REGISTRY.register(name=...)` applied to a class. -/
def Registry.register (r : Registry) (nm : String) (cls : ModelVariantClass) :
    Registry :=
  ⟨r.entries ++ [(nm, cls)]⟩

/-- Dynamic lookup of a registered name. -/
def Registry.lookup (r : Registry) (nm : String) : Option ModelVariantClass :=
  (r.entries.find? (fun e => e.1 = nm)).map (fun e => e.2)

/-- The `(name, class)` pairs that `resnet.py` registers, in source order:
every variant class carries the same `register(name=...)` decorator for
each of the three registries (lines 82-85, 293-296, and the analogous
decorator triples of the remaining variants). -/
def resnet_module_registrations : List (String × ModelVariantClass) :=
  [ ("resnet", .ResNet)
  , ("resnet18", .ResNet18)
  , ("resnet34", .ResNet34)
  , ("resnet50", .ResNet50)
  , ("resnet101", .ResNet101)
  , ("resnet152", .ResNet152)
  , ("resnext50_32x4d", .ResNeXt50_32X4D)
  , ("resnext101_32x8d", .ResNeXt101_32X8D)
  , ("wide_resnet50_2", .WideResNet50_2)
  , ("wide_resnet101_2", .WideResNet101_2) ]

/-- The `BACKBONES` registry after `resnet.py` is imported. -/
def BACKBONES : Registry :=
  resnet_module_registrations.foldl (fun r e => r.register e.1 e.2) ⟨[]⟩

/-- The `CLASSIFIERS` registry after `resnet.py` is imported: the same
decorator names are applied as for `BACKBONES`. -/
def CLASSIFIERS : Registry :=
  resnet_module_registrations.foldl (fun r e => r.register e.1 e.2) ⟨[]⟩

/-- The `MODELS` registry after `resnet.py` is imported: the same
decorator names are applied as for `BACKBONES`. -/
def MODELS : Registry :=
  resnet_module_registrations.foldl (fun r e => r.register e.1 e.2) ⟨[]⟩

/-! ## `torchkit/core/layer/mlp.py` -/

/-- The five sub-modules an `Mlp` instance holds, kept abstract as
functions on an arbitrary tensor type `T`: `fc1`, the configured
activation, `drop1`, `fc2`, `drop2`. -/
structure Mlp (T : Type) where
  fc1 : T → T
  act : T → T
  drop1 : T → T
  fc2 : T → T
  drop2 : T → T

/-- `Mlp.forward(x)` (mlp.py lines 52-58): the five sequential
assignments `x = fc1(x); x = act(x); x = drop1(x); x = fc2(x);
x = drop2(x); return x`. -/
def Mlp.forward {T : Type} (m : Mlp T) (x : T) : T :=
  let x1 := m.fc1 x
  let x2 := m.act x1
  let x3 := m.drop1 x2
  let x4 := m.fc2 x3
  let x5 := m.drop2 x4
  x5

/-- The linear-layer dimensions `Mlp.__init__` configures:
`fc1 : fc1_in → fc1_out` and `fc2 : fc2_in → fc2_out`. -/
structure MlpShapes where
  fc1_in : Nat
  fc1_out : Nat
  fc2_in : Nat
  fc2_out : Nat
deriving DecidableEq

/-- Python `a or b` for an optional numeric `a`: `None` and `0` are falsy
and fall through to `b`. -/
def pyOrDefault (a : Option Nat) (b : Nat) : Nat :=
  match a with
  | none => b
  | some v => if v = 0 then b else v

/-- The dimension bookkeeping of `Mlp.__init__` (mlp.py lines 31-48):
`out_features = out_features or in_features`, `hidden_features =
hidden_features or in_features`, then `fc1 = Linear(in_features,
hidden_features)` and `fc2 = Linear(hidden_features, out_features)`. -/
def Mlp.init_shapes (in_features : Nat)
    (hidden_features out_features : Option Nat) : MlpShapes :=
  let out := pyOrDefault out_features in_features
  let hidden := pyOrDefault hidden_features in_features
  ⟨in_features, hidden, hidden, out⟩

/-! ## Theorems -/

/-- Claim C1, counterexample: on a filesystem where `os.makedirs` raises,
`create_dirs` does take a further control-flow action after logging the
error: it terminates the process via `exit(-1)`, so its failure behaviour
is not exception logging alone. -/
theorem create_dirs_exit_counterexample :
    (create_dirs ⟨fun _ => false, fun _ => false, fun _ => true⟩
        ["d"] false).isProcessExit = true
  ∧ create_dirs ⟨fun _ => false, fun _ => false, fun _ => true⟩ ["d"] false
      = CreateDirsResult.loggedErrorAndExit
          "Cannot create directory: makedirs raised at d." (-1) :=
  ⟨rfl, rfl⟩

/-- Claim C1 (amended): for every list of directory paths, `create_dirs`
either completes and returns `0`, or — when any exception is raised while
creating or recreating the directories — logs the error and then
terminates the process with `exit(-1)`; it performs no other recovery. -/
theorem create_dirs_logs_then_exits (fs : FSModel) (paths : List String)
    (recreate : Bool) :
    create_dirs fs paths recreate = CreateDirsResult.ret 0
  ∨ ∃ msg, create_dirs fs paths recreate
      = CreateDirsResult.loggedErrorAndExit msg (-1) := by
  cases h : (unique paths).findSome? (handle_dir fs recreate) with
  | none => left; simp [create_dirs, h]
  | some msg =>
    right
    exact ⟨"Cannot create directory: " ++ msg ++ ".", by simp [create_dirs, h]⟩

/-- Claim C2, counterexample: the per-split driver of the YOLO conversion
script does not process its annotation files sequentially — it dispatches
them to concurrent workers. -/
theorem convert_script_not_sequential_counterexample :
    (convert_annotations_yolo_split_run "/datasets" "train"
        ["/datasets/waymo/detection2d/train/front/annotations/0.txt"]
        8).dispatch
      ≠ Dispatch.sequential := by
  decide

/-- Claim C2 (amended): the YOLO conversion script's per-split driver
hands every globbed annotation path to `process` through
`joblib.Parallel` with `n_jobs = multiprocessing.cpu_count()`, i.e. it
spawns that many concurrent workers rather than processing the files
without concurrency. -/
theorem convert_script_parallel_dispatch (datasets_dir split : String)
    (globbed_paths : List String) (cpu_count : Nat) :
    (convert_annotations_yolo_split_run datasets_dir split globbed_paths
        cpu_count).dispatch = Dispatch.parallel cpu_count
  ∧ (convert_annotations_yolo_split_run datasets_dir split globbed_paths
        cpu_count).task_inputs = globbed_paths :=
  ⟨rfl, rfl⟩

/-- Claim C3: every ResNet-family variant class is registered under its
variant name in each of `BACKBONES`, `CLASSIFIERS` and `MODELS`, and
dynamic lookup of that name in any of the three registries returns that
class. -/
theorem resnet_registry_lookup :
    (BACKBONES.lookup "resnet" = some ModelVariantClass.ResNet
      ∧ CLASSIFIERS.lookup "resnet" = some ModelVariantClass.ResNet
      ∧ MODELS.lookup "resnet" = some ModelVariantClass.ResNet)
  ∧ (BACKBONES.lookup "resnet18" = some ModelVariantClass.ResNet18
      ∧ CLASSIFIERS.lookup "resnet18" = some ModelVariantClass.ResNet18
      ∧ MODELS.lookup "resnet18" = some ModelVariantClass.ResNet18)
  ∧ (BACKBONES.lookup "resnet34" = some ModelVariantClass.ResNet34
      ∧ CLASSIFIERS.lookup "resnet34" = some ModelVariantClass.ResNet34
      ∧ MODELS.lookup "resnet34" = some ModelVariantClass.ResNet34)
  ∧ (BACKBONES.lookup "resnet50" = some ModelVariantClass.ResNet50
      ∧ CLASSIFIERS.lookup "resnet50" = some ModelVariantClass.ResNet50
      ∧ MODELS.lookup "resnet50" = some ModelVariantClass.ResNet50)
  ∧ (BACKBONES.lookup "resnet101" = some ModelVariantClass.ResNet101
      ∧ CLASSIFIERS.lookup "resnet101" = some ModelVariantClass.ResNet101
      ∧ MODELS.lookup "resnet101" = some ModelVariantClass.ResNet101)
  ∧ (BACKBONES.lookup "resnet152" = some ModelVariantClass.ResNet152
      ∧ CLASSIFIERS.lookup "resnet152" = some ModelVariantClass.ResNet152
      ∧ MODELS.lookup "resnet152" = some ModelVariantClass.ResNet152)
  ∧ (BACKBONES.lookup "resnext50_32x4d" = some ModelVariantClass.ResNeXt50_32X4D
      ∧ CLASSIFIERS.lookup "resnext50_32x4d" = some ModelVariantClass.ResNeXt50_32X4D
      ∧ MODELS.lookup "resnext50_32x4d" = some ModelVariantClass.ResNeXt50_32X4D)
  ∧ (BACKBONES.lookup "resnext101_32x8d" = some ModelVariantClass.ResNeXt101_32X8D
      ∧ CLASSIFIERS.lookup "resnext101_32x8d" = some ModelVariantClass.ResNeXt101_32X8D
      ∧ MODELS.lookup "resnext101_32x8d" = some ModelVariantClass.ResNeXt101_32X8D)
  ∧ (BACKBONES.lookup "wide_resnet50_2" = some ModelVariantClass.WideResNet50_2
      ∧ CLASSIFIERS.lookup "wide_resnet50_2" = some ModelVariantClass.WideResNet50_2
      ∧ MODELS.lookup "wide_resnet50_2" = some ModelVariantClass.WideResNet50_2)
  ∧ (BACKBONES.lookup "wide_resnet101_2" = some ModelVariantClass.WideResNet101_2
      ∧ CLASSIFIERS.lookup "wide_resnet101_2" = some ModelVariantClass.WideResNet101_2
      ∧ MODELS.lookup "wide_resnet101_2" = some ModelVariantClass.WideResNet101_2) := by
  decide

/-- Claim C4: every predefined configuration name resolves to its entry of
`cfgs` and the four stages are built with exactly the configured block
type and per-stage layer counts, while a `cfg` that does not resolve to a
dict fails the constructor's assertion (the construction is `none`). -/
theorem resnet_cfg_resolution (p : PretrainedArg) (arg : CfgArg)
    (h : resolve_cfg arg = none) :
    ResNet_init arg p = none
  ∧ (ResNet_init (CfgArg.str "resnet18") p).map ResNetModel.stages = some
      [⟨Block.BasicBlock, 64, 2, 1⟩, ⟨Block.BasicBlock, 128, 2, 2⟩,
       ⟨Block.BasicBlock, 256, 2, 2⟩, ⟨Block.BasicBlock, 512, 2, 2⟩]
  ∧ (ResNet_init (CfgArg.str "resnet34") p).map ResNetModel.stages = some
      [⟨Block.BasicBlock, 64, 3, 1⟩, ⟨Block.BasicBlock, 128, 4, 2⟩,
       ⟨Block.BasicBlock, 256, 6, 2⟩, ⟨Block.BasicBlock, 512, 3, 2⟩]
  ∧ (ResNet_init (CfgArg.str "resnet50") p).map ResNetModel.stages = some
      [⟨Block.Bottleneck, 64, 3, 1⟩, ⟨Block.Bottleneck, 128, 4, 2⟩,
       ⟨Block.Bottleneck, 256, 6, 2⟩, ⟨Block.Bottleneck, 512, 3, 2⟩]
  ∧ (ResNet_init (CfgArg.str "resnet101") p).map ResNetModel.stages = some
      [⟨Block.Bottleneck, 64, 3, 1⟩, ⟨Block.Bottleneck, 128, 4, 2⟩,
       ⟨Block.Bottleneck, 256, 23, 2⟩, ⟨Block.Bottleneck, 512, 3, 2⟩]
  ∧ (ResNet_init (CfgArg.str "resnet152") p).map ResNetModel.stages = some
      [⟨Block.Bottleneck, 64, 3, 1⟩, ⟨Block.Bottleneck, 128, 8, 2⟩,
       ⟨Block.Bottleneck, 256, 36, 2⟩, ⟨Block.Bottleneck, 512, 3, 2⟩]
  ∧ (ResNet_init (CfgArg.str "resnext50_32x4d") p).map ResNetModel.stages = some
      [⟨Block.Bottleneck, 64, 3, 1⟩, ⟨Block.Bottleneck, 128, 4, 2⟩,
       ⟨Block.Bottleneck, 256, 6, 2⟩, ⟨Block.Bottleneck, 512, 3, 2⟩]
  ∧ (ResNet_init (CfgArg.str "resnext101_32x8d") p).map ResNetModel.stages = some
      [⟨Block.Bottleneck, 64, 3, 1⟩, ⟨Block.Bottleneck, 128, 4, 2⟩,
       ⟨Block.Bottleneck, 256, 23, 2⟩, ⟨Block.Bottleneck, 512, 3, 2⟩]
  ∧ (ResNet_init (CfgArg.str "wide_resnet50_2") p).map ResNetModel.stages = some
      [⟨Block.Bottleneck, 64, 3, 1⟩, ⟨Block.Bottleneck, 128, 4, 2⟩,
       ⟨Block.Bottleneck, 256, 6, 2⟩, ⟨Block.Bottleneck, 512, 3, 2⟩]
  ∧ (ResNet_init (CfgArg.str "wide_resnet101_2") p).map ResNetModel.stages = some
      [⟨Block.Bottleneck, 64, 3, 1⟩, ⟨Block.Bottleneck, 128, 4, 2⟩,
       ⟨Block.Bottleneck, 256, 23, 2⟩, ⟨Block.Bottleneck, 512, 3, 2⟩]
  ∧ (ResNet_init (CfgArg.str "resnet50") p).map (fun mdl => mdl.cfg) = some
      ⟨Block.Bottleneck, [3, 4, 6, 3], false, 1, 64, none, none⟩ := by
  refine ⟨?_, rfl, rfl, rfl, rfl, rfl, rfl, rfl, rfl, rfl, rfl⟩
  simp [ResNet_init, h]

/-- Claim C4, witness at a config name that does not resolve to a dict and
therefore fails the assertion. -/
theorem resnet_cfg_resolution_witness :
    resolve_cfg (CfgArg.str "not_a_cfg") = none
  ∧ ResNet_init (CfgArg.str "not_a_cfg") (PretrainedArg.bool false) = none :=
  ⟨by decide,
   (resnet_cfg_resolution (PretrainedArg.bool false) (CfgArg.str "not_a_cfg")
      (by decide)).1⟩

/-- Claim C5: in every successful ResNet-family construction exactly one
weight-setup path runs — `load_pretrained` precisely when the
`pretrained` argument is truthy, `initialize_weights` (with the config's
`zero_init_residual`) precisely when it is falsy — and the two paths are
distinct. -/
theorem resnet_weight_setup_exclusive (arg : CfgArg) (p : PretrainedArg)
    (m : ResNetModel) (h : ResNet_init arg p = some m) :
    (p.truthy = true → m.weight_setup = WeightSetup.load_pretrained)
  ∧ (p.truthy = false →
      m.weight_setup = WeightSetup.initialize_weights m.cfg.zero_init_residual)
  ∧ (∀ z, WeightSetup.load_pretrained ≠ WeightSetup.initialize_weights z) := by
  cases hr : resolve_cfg arg with
  | none => rw [ResNet_init, hr] at h; cases h
  | some c =>
    rw [ResNet_init, hr] at h
    dsimp only at h
    by_cases hl :
        (c.replace_stride_with_dilation.getD [false, false, false]).length ≠ 3
    · rw [if_pos hl] at h; cases h
    · rw [if_neg hl] at h
      cases h
      refine ⟨?_, ?_, ?_⟩
      · intro ht; simp [ht]
      · intro hf; simp [hf]
      · intro z hq; cases hq

/-- Claim C5, witness: constructing `resnet18` with `pretrained = True`
runs the pretrained-loading path. -/
theorem resnet_weight_setup_witness :
    (PretrainedArg.bool true).truthy = true
  ∧ (ResNetModel.mk ⟨Block.BasicBlock, [2, 2, 2, 2], false, 1, 64, none, none⟩
        [⟨Block.BasicBlock, 64, 2, 1⟩, ⟨Block.BasicBlock, 128, 2, 2⟩,
         ⟨Block.BasicBlock, 256, 2, 2⟩, ⟨Block.BasicBlock, 512, 2, 2⟩]
        WeightSetup.load_pretrained).weight_setup
      = WeightSetup.load_pretrained :=
  ⟨rfl,
   (resnet_weight_setup_exclusive (CfgArg.str "resnet18")
      (PretrainedArg.bool true)
      (ResNetModel.mk ⟨Block.BasicBlock, [2, 2, 2, 2], false, 1, 64, none, none⟩
        [⟨Block.BasicBlock, 64, 2, 1⟩, ⟨Block.BasicBlock, 128, 2, 2⟩,
         ⟨Block.BasicBlock, 256, 2, 2⟩, ⟨Block.BasicBlock, 512, 2, 2⟩]
        WeightSetup.load_pretrained)
      (by decide)).1 rfl⟩



/-- Claim C6: `Mlp.forward(x)` is exactly the straight-line composition
`drop2(fc2(drop1(act(fc1(x)))))`, and the constructor wires
`fc1 : in_features → hidden_features` and
`fc2 : hidden_features → out_features`, each dimension defaulting to
`in_features` when omitted. -/
theorem mlp_forward_straightline {T : Type} (m : Mlp T) (x : T)
    (i : Nat) (ho oo : Option Nat) :
    Mlp.forward m x = m.drop2 (m.fc2 (m.drop1 (m.act (m.fc1 x))))
  ∧ (Mlp.init_shapes i ho oo).fc1_in = i
  ∧ (Mlp.init_shapes i ho oo).fc2_in = (Mlp.init_shapes i ho oo).fc1_out
  ∧ (ho = none → (Mlp.init_shapes i ho oo).fc1_out = i)
  ∧ (oo = none → (Mlp.init_shapes i ho oo).fc2_out = i) := by
  refine ⟨rfl, rfl, rfl, ?_, ?_⟩
  · intro hh; subst hh; rfl
  · intro hg; subst hg; rfl

/-- Claim C6, witness: a concrete five-layer pipeline over `Nat` and the
default dimensions at `in_features = 7`. -/
theorem mlp_forward_straightline_witness :
    Mlp.forward (⟨fun t => t + 1, fun t => t * 2, id, fun t => t + 3, id⟩ :
      Mlp Nat) 0 = 5
  ∧ Mlp.init_shapes 7 none none = ⟨7, 7, 7, 7⟩ := by
  obtain ⟨h1, -, -, -, -⟩ :=
    mlp_forward_straightline
      (⟨fun t => t + 1, fun t => t * 2, id, fun t => t + 3, id⟩ : Mlp Nat)
      0 7 none none
  exact ⟨by rw [h1]; rfl, rfl⟩

/-- Claim C7, counterexample: for an input file whose name itself contains
`annotations`, `process` does not place the output at the input path with
only the `annotations` directory component replaced — `str.replace`
rewrites every occurrence, including the file name. -/
theorem process_path_counterexample :
    (process (fun b _ _ => b) (10, 20)
        "/d/annotations/annotations.txt" []).out_path
      = "/d/annotations_yolo/annotations_yolo.txt"
  ∧ spec_replace_annotations_dir "/d/annotations/annotations.txt"
      = "/d/annotations_yolo/annotations.txt"
  ∧ (process (fun b _ _ => b) (10, 20)
        "/d/annotations/annotations.txt" []).out_path
      ≠ spec_replace_annotations_dir "/d/annotations/annotations.txt" := by
  refine ⟨by decide, by decide, by decide⟩

/-- Claim C7 (amended): for every raw annotation file, `process` writes
one output line per input line, each consisting of the truncated integer
second field followed by the four bounding-box fields (fields 3 to 6)
normalised by `bbox_cxcywh_cxcywh_norm` against the image's height and
width, and the output file is placed at the input path with every
occurrence of the substring `annotations` replaced by
`annotations_yolo` (the directory-component replacement of the original
claim whenever `annotations` occurs exactly once in the path). -/
theorem process_yolo_conversion (bn : List Rat → Rat → Rat → List Rat)
    (h w : Rat) (path : String) (lines : List (List Rat)) :
    (process bn (h, w) path lines).out_lines.length = lines.length
  ∧ (process bn (h, w) path lines).out_lines = lines.map (fun l =>
      { cls := pyInt (l.getD 1 0), bbox := bn ((l.drop 2).take 4) h w })
  ∧ (process bn (h, w) path lines).out_path
      = pyReplace path "annotations" "annotations_yolo" := by
  refine ⟨?_, rfl, rfl⟩
  simp [process]

/-- Claim C8: every path-checking predicate of `filedir.py` maps `None`
to `False` (rather than raising), and `list_subdirs` maps `None` to
`None`. -/
theorem filedir_none_safe :
    is_basename none = false
  ∧ (∀ isfile : String → Bool, is_ckpt_file isfile none = false)
  ∧ (∀ isfile : String → Bool, is_json_file isfile none = false)
  ∧ is_name none = false
  ∧ is_stem none = false
  ∧ (∀ isfile : String → Bool, is_torch_saved_file isfile none = false)
  ∧ (∀ isfile : String → Bool, is_txt_file isfile none = false)
  ∧ (∀ urlOk : String → Bool, is_url urlOk none = false)
  ∧ (∀ isfile urlOk : String → Bool, is_url_or_file isfile urlOk none = false)
  ∧ (∀ isfile : String → Bool, is_weights_file isfile none = false)
  ∧ (∀ isfile : String → Bool, is_xml_file isfile none = false)
  ∧ (∀ isfile : String → Bool, is_yaml_file isfile none = false)
  ∧ (∀ listdir : String → List String, ∀ isdir : String → Bool,
      list_subdirs listdir isdir none = none) :=
  ⟨rfl, fun _ => rfl, fun _ => rfl, rfl, rfl, fun _ => rfl, fun _ => rfl,
   fun _ => rfl, fun _ _ => rfl, fun _ => rfl, fun _ => rfl, fun _ => rfl,
   fun _ _ => rfl⟩

/-- Claim C9: `delete_files` dot-prefixes its `extension` argument exactly
when the argument contains no dot, the per-directory glob pattern is the
directory joined with `"*"` plus the normalised extension, and with the
default extension `""` the pattern is `"*."`, which matches only names
ending in a dot — not every file. -/
theorem delete_files_default_pattern (d ext nm : String) :
    (normalize_extension ext = "." ++ ext ↔ strContainsChar ext '.' = false)
  ∧ delete_files_pattern d ext = os_path_join d ("*" ++ normalize_extension ext)
  ∧ delete_files_pattern "dir" "" = "dir/*."
  ∧ matchesStarSuffix "*." nm = strEndsWith nm "."
  ∧ matchesStarSuffix "*." "file.txt" = false
  ∧ matchesStarSuffix "*" "file.txt" = true := by
  refine ⟨?_, rfl, by decide, rfl, by decide, by decide⟩
  cases hc : strContainsChar ext '.' with
  | true =>
    simp only [normalize_extension, hc, if_true]
    constructor
    · intro he
      have hlen := congrArg String.length he
      rw [String.length_append] at hlen
      have hone : (".").length = 1 := rfl
      omega
    · intro hfalse
      cases hfalse
  | false =>
    simp [normalize_extension, hc]

/-- Claim C10: `is_basename` and `is_stem` both require the path's parent
to be `"."`, demand respectively a non-empty and an empty `splitext`
extension, and are therefore never both `True` on the same path. -/
theorem is_basename_is_stem_mutually_exclusive (p : String) :
    (is_basename (some p) = true ↔
      (pathlib_parent p = "." ∧ (posix_splitext p).2 ≠ ""))
  ∧ (is_stem (some p) = true ↔
      (pathlib_parent p = "." ∧ (posix_splitext p).2 = ""))
  ∧ ¬(is_basename (some p) = true ∧ is_stem (some p) = true) := by
  by_cases h1 : pathlib_parent p = "." <;>
    by_cases h2 : (posix_splitext p).2 = "" <;>
      simp [is_basename, is_stem, h1, h2]
